import Mathlib

/-!
Verification of the curltostring wrapper (src/include/curl_to_padded_string.h).

The repository is a thin binding over libcurl and the simdjson padded-string
builder.  We embed the two write callbacks and the two public functions as
executable Lean definitions.  The external collaborators are modelled by an
environment: whether curl_easy_init succeeds, the chunk sequence the transport
layer would deliver, the completion code of an un-aborted transfer, the
curl_easy_strerror lookup, and the allocation oracle deciding whether each
padded_string_builder append succeeds.  All size_t arithmetic is modelled as
natural numbers reduced modulo 2 ^ 64.
-/

namespace CurlToPaddedString

/-- The size_t modulus: the C code computes lengths and the byte counter in
64-bit unsigned arithmetic. -/
def U64 : Nat := 2 ^ 64

/-- One chunk handed by libcurl to a write callback: the size and nmemb
arguments and the bytes behind the ptr argument. -/
structure Chunk where
  sz : Nat
  nmemb : Nat
  data : List Nat
deriving Repr, DecidableEq

/-- The byte count libcurl associates with a chunk: size * nmemb evaluated as
size_t, i.e. modulo 2 ^ 64. -/
def Chunk.len (c : Chunk) : Nat := (c.sz * c.nmemb) % U64

/-- A chunk is well formed when the buffer behind ptr really holds
size * nmemb bytes and that product does not overflow size_t, which is what
libcurl guarantees for real transfers. -/
def Chunk.wf (c : Chunk) : Prop :=
  c.data.length = c.sz * c.nmemb ∧ c.sz * c.nmemb < U64

instance (c : Chunk) : Decidable c.wf := by
  unfold Chunk.wf; infer_instance

/-- internal::count_callback: len = size * nmemb; *count += len; return len.
The state is the size_t accumulator behind userdata; the result pairs the new
accumulator with the value returned to libcurl.  The data pointer is not
read. -/
def count_callback (sz nmemb : Nat) (count : Nat) : Nat × Nat :=
  let len := (sz * nmemb) % U64
  ((count + len) % U64, len)

/-- State of a simdjson::padded_string_builder: the bytes accumulated so far
and how many append calls were made (the latter indexes the allocation
oracle). -/
structure Builder where
  content : List Nat
  calls : Nat
deriving Repr, DecidableEq

/-- simdjson::padded_string_builder::append modelled: the environment oracle
appendOk decides whether the allocation behind the n-th append call succeeds;
on success the first total bytes of the chunk are appended. -/
def Builder.append (appendOk : Nat → Bool) (b : Builder) (data : List Nat)
    (total : Nat) : Builder × Bool :=
  if appendOk b.calls then
    ({ content := b.content ++ data.take total, calls := b.calls + 1 }, true)
  else
    ({ content := b.content, calls := b.calls + 1 }, false)

/-- internal::builder_callback: total = size * nmemb; ok = bldr->append(ptr,
total); return ok ? total : 0. -/
def builder_callback (appendOk : Nat → Bool) (b : Builder) (c : Chunk) :
    Builder × Nat :=
  let total := (c.sz * c.nmemb) % U64
  let r := Builder.append appendOk b c.data total
  (r.1, if r.2 then total else 0)

/-- CURLE_OK. -/
def CURLE_OK : Nat := 0

/-- CURLE_WRITE_ERROR, the code libcurl reports when a write callback does not
consume a full chunk. -/
def CURLE_WRITE_ERROR : Nat := 23

/-- The libcurl delivery loop inside curl_easy_perform: chunks are handed to
the write callback in arrival order; if the callback returns a value different
from the byte count of the chunk, the transfer is aborted.  Returns the final
callback state and whether every chunk was consumed without abort. -/
def deliver {σ : Type} (step : σ → Chunk → σ × Nat) : σ → List Chunk → σ × Bool
  | s, [] => (s, true)
  | s, c :: cs =>
    let r := step s c
    if r.2 = c.len then deliver step r.1 cs else (r.1, false)

/-- curl_easy_perform: runs the delivery loop; an aborted transfer completes
with CURLE_WRITE_ERROR, otherwise with the code the network produced. -/
def curl_easy_perform {σ : Type} (step : σ → Chunk → σ × Nat) (s0 : σ)
    (chunks : List Chunk) (netCode : Nat) : σ × Nat :=
  let r := deliver step s0 chunks
  (r.1, if r.2 then netCode else CURLE_WRITE_ERROR)

/-- Which write callback a call registers. -/
inductive WriteFn
  | count
  | builder
deriving Repr, DecidableEq

/-- The curl_easy_setopt calls the wrapper performs, recorded with their
values.  WRITEDATA is the address of the local accumulator or builder and is
represented by the state threading of the delivery loop itself. -/
inductive Opt
  | URL (u : String)
  | FOLLOWLOCATION (v : Int)
  | NOPROGRESS (v : Int)
  | MAXREDIRS (v : Int)
  | TIMEOUT_MS (v : Int)
  | WRITEFUNCTION (f : WriteFn)
deriving Repr, DecidableEq

/-- The environment of one call: whether curl_easy_init succeeds, the chunks
the transport layer would deliver, the completion code of an un-aborted
transfer, curl_easy_strerror, and the builder allocation oracle. -/
structure Env where
  initOk : Bool
  chunks : List Chunk
  netCode : Nat
  strerror : Nat → String
  appendOk : Nat → Bool

/-- Observable outcome of one get_actual_payload_size call: the returned
size_t, the options set on the handle, whether a handle was acquired, and how
many times curl_easy_cleanup ran. -/
structure ProbeRun where
  result : Nat
  opts : List Opt
  acquired : Bool
  cleanups : Nat
deriving Repr, DecidableEq

/-- get_actual_payload_size: init; on failure return 0; set URL,
FOLLOWLOCATION, the counting write callback and its userdata; perform;
cleanup; return the counter when the code is CURLE_OK and 0 otherwise. -/
def get_actual_payload_size (url : String) (env : Env) : ProbeRun :=
  if !env.initOk then
    { result := 0, opts := [], acquired := false, cleanups := 0 }
  else
    let opts := [Opt.URL url, Opt.FOLLOWLOCATION 1, Opt.WRITEFUNCTION WriteFn.count]
    let r := curl_easy_perform (fun cnt c => count_callback c.sz c.nmemb cnt) 0
      env.chunks env.netCode
    { result := if r.2 = CURLE_OK then r.1 else 0,
      opts := opts, acquired := true, cleanups := 1 }

/-- Result of load_url: either the padded string built from the body (its
logical content; the trailing padding is supplied by simdjson on conversion)
or a runtime_error message. -/
inductive LoadResult
  | ok (content : List Nat)
  | err (msg : String)
deriving Repr, DecidableEq

/-- Observable outcome of one load_url call. -/
structure LoadRun where
  result : LoadResult
  opts : List Opt
  acquired : Bool
  cleanups : Nat

/-- load_url: builder; init; on failure return the runtime_error with message
Failed to initialize curl; set URL, FOLLOWLOCATION, NOPROGRESS, MAXREDIRS 10,
TIMEOUT_MS 15000, the builder write callback and its userdata; perform;
cleanup; on a non-CURLE_OK code return the strerror text as an error,
otherwise convert the builder and return the padded string. -/
def load_url (url : String) (env : Env) : LoadRun :=
  if !env.initOk then
    { result := LoadResult.err "Failed to initialize curl", opts := [],
      acquired := false, cleanups := 0 }
  else
    let opts := [Opt.URL url, Opt.FOLLOWLOCATION 1, Opt.NOPROGRESS 1,
      Opt.MAXREDIRS 10, Opt.TIMEOUT_MS 15000, Opt.WRITEFUNCTION WriteFn.builder]
    let r := curl_easy_perform (builder_callback env.appendOk) ⟨[], 0⟩
      env.chunks env.netCode
    { result := if r.2 ≠ CURLE_OK then LoadResult.err (env.strerror r.2)
        else LoadResult.ok r.1.content,
      opts := opts, acquired := true, cleanups := 1 }

/-- The completion code a load_url transfer ends with (netCode when the
delivery loop finishes, CURLE_WRITE_ERROR when a callback aborted it). -/
def loadRes (env : Env) : Nat :=
  (curl_easy_perform (builder_callback env.appendOk) ⟨[], 0⟩
    env.chunks env.netCode).2

/-- The successive values of the probe byte counter, one entry per delivered
chunk boundary, starting at 0. -/
def countStates (chunks : List Chunk) : List Nat :=
  List.scanl (fun cnt c => (count_callback c.sz c.nmemb cnt).1) 0 chunks

/-- Environment of a run whose curl_easy_init call fails. -/
def envInitFail : Env := ⟨false, [], 0, fun _ => "", fun _ => true⟩

/-- Environment of a successful transfer of an empty body. -/
def envOkEmpty : Env := ⟨true, [], 0, fun _ => "", fun _ => true⟩

/-- Environment of a successful two-chunk transfer of bytes 1 2 3 4 5. -/
def envTwoChunks : Env :=
  ⟨true, [⟨1, 3, [1, 2, 3]⟩, ⟨2, 1, [4, 5]⟩], 0, fun _ => "", fun _ => true⟩

/-- Environment of a successful two-chunk transfer of bytes 7 8 9 1 2. -/
def envFiveBytes : Env :=
  ⟨true, [⟨1, 3, [7, 8, 9]⟩, ⟨1, 2, [1, 2]⟩], 0, fun _ => "", fun _ => true⟩

/-- Like envFiveBytes but every byte replaced by 9: same chunk lengths,
different contents. -/
def envFiveNines : Env :=
  ⟨true, [⟨1, 3, [9, 9, 9]⟩, ⟨1, 2, [9, 9]⟩], 0, fun _ => "", fun _ => true⟩

/-- Environment in which the very first builder append is rejected. -/
def envAppendFail : Env :=
  ⟨true, [⟨1, 2, [5, 6]⟩], 0, fun _ => "write error", fun _ => false⟩

/-- Environment delivering one chunk whose size * nmemb product wraps
size_t: 2 ^ 63 * 2 = 2 ^ 64 ≡ 0. -/
def envWrap : Env := ⟨true, [⟨2 ^ 63, 2, []⟩], 0, fun _ => "", fun _ => true⟩

/-- Environment of a transfer completing with a non-success code (6, the
could-not-resolve-host code). -/
def envNetFail : Env := ⟨true, [], 6, fun _ => "resolve error", fun _ => true⟩

/-! ## Lemmas about the delivery loop -/

theorem U64_pos : 0 < U64 := by unfold U64; positivity

theorem deliver_nil {σ : Type} (step : σ → Chunk → σ × Nat) (s : σ) :
    deliver step s [] = (s, true) := rfl

theorem deliver_cons {σ : Type} (step : σ → Chunk → σ × Nat) (s : σ)
    (c : Chunk) (cs : List Chunk) :
    deliver step s (c :: cs) =
      if (step s c).2 = c.len then deliver step (step s c).1 cs
      else ((step s c).1, false) := rfl

theorem deliver_step_ok {σ : Type} (step : σ → Chunk → σ × Nat) (s : σ)
    (c : Chunk) (cs : List Chunk) (h : (step s c).2 = c.len) :
    deliver step s (c :: cs) = deliver step (step s c).1 cs := by
  rw [deliver_cons, if_pos h]

theorem deliver_step_abort {σ : Type} (step : σ → Chunk → σ × Nat) (s : σ)
    (c : Chunk) (cs : List Chunk) (h : ¬ (step s c).2 = c.len) :
    deliver step s (c :: cs) = ((step s c).1, false) := by
  rw [deliver_cons, if_neg h]

/-- The counting callback consumes every chunk in full and leaves the counter
at the wrapped running total. -/
theorem deliver_count (chunks : List Chunk) (k : Nat) (hk : k < U64) :
    deliver (fun cnt c => count_callback c.sz c.nmemb cnt) k chunks =
      ((k + (chunks.map Chunk.len).sum) % U64, true) := by
  induction chunks generalizing k with
  | nil => simp [deliver_nil, Nat.mod_eq_of_lt hk]
  | cons c cs ih =>
    rw [deliver_step_ok _ _ _ _ rfl]
    have h1 : ((fun cnt c => count_callback c.sz c.nmemb cnt) k c).1
        = (k + c.sz * c.nmemb % U64) % U64 := rfl
    rw [h1, ih _ (Nat.mod_lt _ U64_pos), List.map_cons, List.sum_cons,
      Nat.mod_add_mod]
    simp only [Chunk.len]
    rw [Nat.add_assoc]

/-- When every append succeeds and the chunks are well formed, the builder
callback consumes every chunk in full and accumulates their concatenation. -/
theorem deliver_builder_ok (appendOk : Nat → Bool) (chunks : List Chunk)
    (b : Builder) (hwf : ∀ c ∈ chunks, c.wf) (happ : ∀ n, appendOk n = true) :
    deliver (builder_callback appendOk) b chunks =
      ({ content := b.content ++ (chunks.map Chunk.data).flatten,
         calls := b.calls + chunks.length }, true) := by
  induction chunks generalizing b with
  | nil => simp [deliver_nil]
  | cons c cs ih =>
    obtain ⟨hlen, hlt⟩ := hwf c (List.mem_cons_self c cs)
    have htake : c.data.take (c.sz * c.nmemb % U64) = c.data := by
      rw [Nat.mod_eq_of_lt hlt, ← hlen, List.take_length]
    have hstep1 : (builder_callback appendOk b c).1
        = { content := b.content ++ c.data, calls := b.calls + 1 } := by
      simp [builder_callback, Builder.append, happ b.calls, htake]
    have hstep2 : (builder_callback appendOk b c).2 = c.len := by
      simp [builder_callback, Builder.append, happ b.calls, Chunk.len]
    rw [deliver_step_ok _ _ _ _ hstep2, hstep1,
      ih _ (fun x hx => hwf x (List.mem_cons_of_mem c hx))]
    simp [List.append_assoc]
    omega

/-- If the first rejected append happens while the i-th chunk of a well
formed, positive-length chunk list is being delivered, the delivery loop
aborts. -/
theorem deliver_builder_abort (appendOk : Nat → Bool) (chunks : List Chunk)
    (b : Builder) (i : Nat)
    (hwf : ∀ c ∈ chunks, c.wf) (hpos : ∀ c ∈ chunks, 0 < c.sz * c.nmemb)
    (hi : i < chunks.length)
    (hfail : appendOk (b.calls + i) = false)
    (hprev : ∀ j, j < i → appendOk (b.calls + j) = true) :
    (deliver (builder_callback appendOk) b chunks).2 = false := by
  induction chunks generalizing b i with
  | nil => simp at hi
  | cons c cs ih =>
    obtain ⟨hlen, hlt⟩ := hwf c (List.mem_cons_self c cs)
    have hp := hpos c (List.mem_cons_self c cs)
    cases i with
    | zero =>
      have hf : appendOk b.calls = false := by simpa using hfail
      have hstep2 : (builder_callback appendOk b c).2 = 0 := by
        simp [builder_callback, Builder.append, hf]
      have hne : ¬ ((builder_callback appendOk b c).2 = c.len) := by
        rw [hstep2]
        simp only [Chunk.len, Nat.mod_eq_of_lt hlt]
        omega
      rw [deliver_step_abort _ _ _ _ hne]
    | succ j =>
      have h0 : appendOk b.calls = true := by
        have := hprev 0 (Nat.succ_pos j)
        simpa using this
      have htake : c.data.take (c.sz * c.nmemb % U64) = c.data := by
        rw [Nat.mod_eq_of_lt hlt, ← hlen, List.take_length]
      have hstep1 : (builder_callback appendOk b c).1
          = { content := b.content ++ c.data, calls := b.calls + 1 } := by
        simp [builder_callback, Builder.append, h0, htake]
      have hstep2 : (builder_callback appendOk b c).2 = c.len := by
        simp [builder_callback, Builder.append, h0, Chunk.len]
      rw [deliver_step_ok _ _ _ _ hstep2, hstep1]
      exact ih _ j (fun x hx => hwf x (List.mem_cons_of_mem c hx))
        (fun x hx => hpos x (List.mem_cons_of_mem c hx))
        (by simpa using hi)
        (by simpa [Nat.add_assoc, Nat.add_comm, Nat.add_left_comm] using hfail)
        (fun m hm => by
          have := hprev (m + 1) (by omega)
          simpa [Nat.add_assoc, Nat.add_comm, Nat.add_left_comm] using this)

/-- The counter trace of the probe is non-decreasing as long as the running
total does not wrap size_t. -/
theorem scanl_count_mono (chunks : List Chunk) (k : Nat)
    (h : k + (chunks.map Chunk.len).sum < U64) :
    List.Chain' (fun a b => a ≤ b)
      (List.scanl (fun cnt c => (count_callback c.sz c.nmemb cnt).1) k chunks) := by
  induction chunks generalizing k with
  | nil => simp
  | cons c cs ih =>
    have hstep : (count_callback c.sz c.nmemb k).1 = k + c.len := by
      simp only [count_callback, Chunk.len]
      have : k + c.sz * c.nmemb % U64 < U64 := by
        simp only [List.map_cons, List.sum_cons, Chunk.len] at h
        omega
      exact Nat.mod_eq_of_lt this
    have htail : (k + c.len) + (cs.map Chunk.len).sum < U64 := by
      simp only [List.map_cons, List.sum_cons] at h
      omega
    rw [List.scanl]
    cases cs with
    | nil =>
      simp only [List.scanl]
      refine List.chain'_cons.mpr ⟨?_, List.chain'_singleton _⟩
      rw [hstep]; omega
    | cons d ds =>
      rw [List.scanl]
      refine List.chain'_cons.mpr ⟨?_, ?_⟩
      · rw [hstep]; omega
      · have := ih ((count_callback c.sz c.nmemb k).1) (by rw [hstep]; exact htail)
        rwa [List.scanl] at this

/-- Chunk.len rewritten through the raw products. -/
theorem map_len_eq (chunks : List Chunk) :
    chunks.map Chunk.len
      = (chunks.map fun c => c.sz * c.nmemb).map fun x => x % U64 := by
  simp [List.map_map, Chunk.len, Function.comp]

/-- Closed form of the probe result once curl_easy_init succeeded: the counting
callback never aborts, so the completion code is the network code, and the
counter ends at the wrapped sum of the chunk lengths. -/
theorem probe_result_eq (url : String) (env : Env) (hinit : env.initOk = true) :
    (get_actual_payload_size url env).result
      = if env.netCode = CURLE_OK
        then (env.chunks.map Chunk.len).sum % U64 else 0 := by
  have hd := deliver_count env.chunks 0 U64_pos
  simp [get_actual_payload_size, hinit, curl_easy_perform, hd]

/-- Closed form of the load_url result once curl_easy_init succeeded. -/
theorem load_url_result_eq (url : String) (env : Env)
    (hinit : env.initOk = true) :
    (load_url url env).result =
      if loadRes env ≠ CURLE_OK then LoadResult.err (env.strerror (loadRes env))
      else LoadResult.ok
        (deliver (builder_callback env.appendOk) ⟨[], 0⟩ env.chunks).1.content := by
  simp [load_url, hinit, loadRes, curl_easy_perform]

/-! ## The claims -/

/-- Claim C1: for every successful transfer in which the transport layer
delivers chunks c1..cn to the write callback of load_url and every append
succeeds, the returned padded buffer has logical content equal to the exact
concatenation of the chunks in arrival order, with no bytes dropped,
reordered, or duplicated. -/
theorem load_url_concatenates_chunks (url : String) (env : Env)
    (hinit : env.initOk = true)
    (hwf : ∀ c ∈ env.chunks, c.wf)
    (happ : ∀ n, env.appendOk n = true)
    (hnet : env.netCode = CURLE_OK) :
    (load_url url env).result
      = LoadResult.ok (env.chunks.map Chunk.data).flatten := by
  have hd := deliver_builder_ok env.appendOk env.chunks ⟨[], 0⟩ hwf happ
  simp [load_url, hinit, curl_easy_perform, hd, hnet, CURLE_OK]

/-- Concrete run of load_url_concatenates_chunks: two chunks concatenate to
the five bytes 1 2 3 4 5. -/
theorem load_url_concatenates_chunks_witness :
    (load_url "http://x" envTwoChunks).result
      = LoadResult.ok [1, 2, 3, 4, 5] := by
  have h := load_url_concatenates_chunks "http://x" envTwoChunks rfl
    (by decide) (fun n => rfl) rfl
  simpa [envTwoChunks] using h

/-- Claim C2: for a successful probe transfer the returned value is the sum of
the delivered chunk lengths, the counter is monotonically non-decreasing
during the call, and the callback reports every chunk as fully consumed. -/
theorem probe_sums_chunk_lengths (url : String) (env : Env)
    (hinit : env.initOk = true)
    (hnet : env.netCode = CURLE_OK)
    (hwf : ∀ c ∈ env.chunks, c.wf)
    (hsum : (env.chunks.map Chunk.len).sum < U64) :
    (get_actual_payload_size url env).result
        = (env.chunks.map fun c => c.sz * c.nmemb).sum
      ∧ List.Chain' (fun a b => a ≤ b) (countStates env.chunks)
      ∧ (∀ (k : Nat) (c : Chunk), (count_callback c.sz c.nmemb k).2 = c.len) := by
  refine ⟨?_, ?_, fun k c => rfl⟩
  · have hmap : env.chunks.map Chunk.len
        = env.chunks.map fun c => c.sz * c.nmemb := by
      apply List.map_congr_left
      intro c hc
      exact Nat.mod_eq_of_lt (hwf c hc).2
    rw [probe_result_eq url env hinit, if_pos hnet, Nat.mod_eq_of_lt hsum, hmap]
  · exact scanl_count_mono env.chunks 0 (by omega)

/-- Concrete run of probe_sums_chunk_lengths: 3 bytes then 2 bytes probe to
size 5. -/
theorem probe_sums_chunk_lengths_witness :
    (get_actual_payload_size "http://x" envFiveBytes).result = 5 := by
  have h := (probe_sums_chunk_lengths "http://x" envFiveBytes rfl rfl
    (by decide) (by decide)).1
  simpa [envFiveBytes] using h

/-- Claim C3: if curl_easy_init fails or the transfer completes with a
non-success code, get_actual_payload_size returns 0; and a successful transfer
of an empty resource also returns 0, so every failure mode is
indistinguishable from a legitimately empty resource. -/
theorem probe_failure_returns_zero (url : String) (env : Env)
    (h : env.initOk = false ∨ env.netCode ≠ CURLE_OK) :
    (get_actual_payload_size url env).result = 0
      ∧ ∀ u2 : String, ∀ e : Env, e.initOk = true → e.netCode = CURLE_OK →
          e.chunks = [] → (get_actual_payload_size u2 e).result = 0 := by
  constructor
  · cases hb : env.initOk with
    | false => simp [get_actual_payload_size, hb]
    | true =>
      have hne : env.netCode ≠ CURLE_OK := by
        rcases h with h1 | h2
        · rw [hb] at h1; exact absurd h1 (by simp)
        · exact h2
      rw [probe_result_eq url env hb, if_neg hne]
  · intro u2 e h1 h2 h3
    rw [probe_result_eq u2 e h1, if_pos h2, h3]
    simp

/-- Concrete run of probe_failure_returns_zero: a failed transfer probes to 0
and so does an empty successful one. -/
theorem probe_failure_returns_zero_witness :
    (get_actual_payload_size "http://x" envInitFail).result = 0
      ∧ (get_actual_payload_size "http://x" envOkEmpty).result = 0 := by
  have h := probe_failure_returns_zero "http://x" envInitFail (Or.inl rfl)
  exact ⟨h.1, h.2 "http://x" envOkEmpty rfl rfl rfl⟩

/-- Counterexample to claim C4 as stated: on an init failure the error message
produced by load_url is Failed to initialize curl, not failed to
initialize. -/
theorem load_url_init_message_counterexample :
    (load_url "http://x" envInitFail).result
        = LoadResult.err "Failed to initialize curl"
      ∧ (load_url "http://x" envInitFail).result
        ≠ LoadResult.err "failed to initialize" := by
  constructor
  · rfl
  · decide

/-- Claim C4 (amended): load_url returns the failure variant exactly when the
transfer does not succeed: on init failure the error message is Failed to
initialize curl; on a non-success completion code it returns the strerror
text of that code; on success it returns the padded buffer. -/
theorem load_url_error_paths (url : String) (env : Env) :
    (env.initOk = false →
        (load_url url env).result = LoadResult.err "Failed to initialize curl")
      ∧ (env.initOk = true → loadRes env ≠ CURLE_OK →
        (load_url url env).result
          = LoadResult.err (env.strerror (loadRes env)))
      ∧ (env.initOk = true → loadRes env = CURLE_OK →
        (load_url url env).result = LoadResult.ok
          (deliver (builder_callback env.appendOk) ⟨[], 0⟩
            env.chunks).1.content) := by
  refine ⟨fun hf => by simp [load_url, hf], fun hinit hne => ?_,
    fun hinit heq => ?_⟩
  · rw [load_url_result_eq url env hinit, if_pos hne]
  · rw [load_url_result_eq url env hinit, if_neg (fun hc => hc heq)]

/-- Concrete run of load_url_error_paths: init failure yields the
Failed to initialize curl error. -/
theorem load_url_error_paths_witness :
    (load_url "http://x" envInitFail).result
      = LoadResult.err "Failed to initialize curl" :=
  (load_url_error_paths "http://x" envInitFail).1 rfl

/-- Claim C5: if the builder rejects an appended chunk, the write callback
returns 0, the transfer aborts with CURLE_WRITE_ERROR, load_url yields an
error carrying its strerror text, and no partial content is ever returned as
a success value. -/
theorem load_url_append_failure_aborts (url : String) (env : Env)
    (hinit : env.initOk = true)
    (hwf : ∀ c ∈ env.chunks, c.wf)
    (hpos : ∀ c ∈ env.chunks, 0 < c.sz * c.nmemb)
    (i : Nat) (hi : i < env.chunks.length)
    (hfail : env.appendOk i = false)
    (hprev : ∀ j, j < i → env.appendOk j = true) :
    (load_url url env).result = LoadResult.err (env.strerror CURLE_WRITE_ERROR)
      ∧ (∀ b c, env.appendOk b.calls = false →
          (builder_callback env.appendOk b c).2 = 0)
      ∧ ∀ content, (load_url url env).result ≠ LoadResult.ok content := by
  have habort : (deliver (builder_callback env.appendOk) ⟨[], 0⟩
      env.chunks).2 = false :=
    deliver_builder_abort env.appendOk env.chunks ⟨[], 0⟩ i hwf hpos hi
      (by simpa using hfail) (fun j hj => by simpa using hprev j hj)
  have hres : loadRes env = CURLE_WRITE_ERROR := by
    simp [loadRes, curl_easy_perform, habort]
  have hr : (load_url url env).result
      = LoadResult.err (env.strerror CURLE_WRITE_ERROR) := by
    rw [load_url_result_eq url env hinit, hres,
      if_pos (by decide : CURLE_WRITE_ERROR ≠ CURLE_OK)]
  refine ⟨hr, fun b c hb => by simp [builder_callback, Builder.append, hb],
    fun content hcon => ?_⟩
  rw [hr] at hcon
  exact LoadResult.noConfusion hcon

/-- Concrete run of load_url_append_failure_aborts: the first append is
rejected and load_url reports the write error. -/
theorem load_url_append_failure_aborts_witness :
    (load_url "http://x" envAppendFail).result
      = LoadResult.err "write error" := by
  have h := (load_url_append_failure_aborts "http://x" envAppendFail rfl
    (by decide) (by decide) 0 (by decide) rfl
    (fun j hj => absurd hj (Nat.not_lt_zero j))).1
  simpa [envAppendFail] using h

/-- Claim C6: load_url configures MAXREDIRS 10 and TIMEOUT_MS 15000 on every
call, and a transfer completing with a non-success code (as a too-long
redirect chain or an elapsed timeout produces) makes load_url return an
error. -/
theorem load_url_redirect_timeout_policy (url : String) (env : Env)
    (hinit : env.initOk = true) :
    Opt.MAXREDIRS 10 ∈ (load_url url env).opts
      ∧ Opt.TIMEOUT_MS 15000 ∈ (load_url url env).opts
      ∧ (env.netCode ≠ CURLE_OK →
          ∃ msg, (load_url url env).result = LoadResult.err msg) := by
  refine ⟨by simp [load_url, hinit], by simp [load_url, hinit], fun hne => ?_⟩
  have hres : loadRes env ≠ CURLE_OK := by
    have hsplit : loadRes env
        = if (deliver (builder_callback env.appendOk) ⟨[], 0⟩ env.chunks).2
          then env.netCode else CURLE_WRITE_ERROR := rfl
    rw [hsplit]
    cases (deliver (builder_callback env.appendOk) ⟨[], 0⟩ env.chunks).2 with
    | false => simpa using (by decide : CURLE_WRITE_ERROR ≠ CURLE_OK)
    | true => simpa using hne
  exact ⟨env.strerror (loadRes env),
    by rw [load_url_result_eq url env hinit, if_pos hres]⟩

/-- Concrete run of load_url_redirect_timeout_policy: the options are set and
a failing network code yields an error result. -/
theorem load_url_redirect_timeout_policy_witness :
    Opt.MAXREDIRS 10 ∈ (load_url "http://x" envNetFail).opts
      ∧ Opt.TIMEOUT_MS 15000 ∈ (load_url "http://x" envNetFail).opts
      ∧ ∃ msg, (load_url "http://x" envNetFail).result
          = LoadResult.err msg := by
  obtain ⟨h1, h2, h3⟩ := load_url_redirect_timeout_policy "http://x" envNetFail rfl
  exact ⟨h1, h2, h3 (by decide)⟩

/-- Counterexample to claim C7 as stated: get_actual_payload_size does not set
MAXREDIRS at all, so no maximum redirect count of 10 is configured for the
probe. -/
theorem probe_no_maxredirs_counterexample :
    Opt.MAXREDIRS 10 ∉ (get_actual_payload_size "http://x" envOkEmpty).opts := by
  decide

/-- Claim C7 (amended): get_actual_payload_size configures redirects to be
followed (FOLLOWLOCATION 1) but sets neither a maximum redirect count nor a
timeout: its options are exactly URL, FOLLOWLOCATION 1 and the counting write
callback. -/
theorem probe_transfer_policy (url : String) (env : Env)
    (hinit : env.initOk = true) :
    (get_actual_payload_size url env).opts
        = [Opt.URL url, Opt.FOLLOWLOCATION 1, Opt.WRITEFUNCTION WriteFn.count]
      ∧ (∀ v, Opt.MAXREDIRS v ∉ (get_actual_payload_size url env).opts)
      ∧ (∀ v, Opt.TIMEOUT_MS v ∉ (get_actual_payload_size url env).opts) := by
  have hopts : (get_actual_payload_size url env).opts
      = [Opt.URL url, Opt.FOLLOWLOCATION 1, Opt.WRITEFUNCTION WriteFn.count] := by
    simp [get_actual_payload_size, hinit]
  refine ⟨hopts, fun v => ?_, fun v => ?_⟩ <;> rw [hopts] <;> simp

/-- Concrete run of probe_transfer_policy. -/
theorem probe_transfer_policy_witness :
    (get_actual_payload_size "http://x" envOkEmpty).opts
      = [Opt.URL "http://x", Opt.FOLLOWLOCATION 1,
        Opt.WRITEFUNCTION WriteFn.count] :=
  (probe_transfer_policy "http://x" envOkEmpty rfl).1

/-- Claim C8: in both functions, every path that acquires a transport handle
releases it exactly once before returning, and no cleanup happens when no
handle was acquired. -/
theorem handle_cleanup_exactly_once (url : String) (env : Env) :
    ((get_actual_payload_size url env).acquired = true →
        (get_actual_payload_size url env).cleanups = 1)
      ∧ ((get_actual_payload_size url env).acquired = false →
        (get_actual_payload_size url env).cleanups = 0)
      ∧ ((load_url url env).acquired = true →
        (load_url url env).cleanups = 1)
      ∧ ((load_url url env).acquired = false →
        (load_url url env).cleanups = 0) := by
  cases hb : env.initOk <;> simp [get_actual_payload_size, load_url, hb]

/-- Concrete run of handle_cleanup_exactly_once. -/
theorem handle_cleanup_exactly_once_witness :
    (load_url "http://x" envOkEmpty).cleanups = 1 :=
  (handle_cleanup_exactly_once "http://x" envOkEmpty).2.2.1 rfl

/-- Claim C9: the counting callback never reads the chunk bytes: two
environments whose chunk length sequences agree produce the same probe
result, whatever the byte contents. -/
theorem probe_independent_of_chunk_data (url : String) (env1 env2 : Env)
    (hinit : env1.initOk = env2.initOk)
    (hnet : env1.netCode = env2.netCode)
    (hlen : env1.chunks.map (fun c => c.sz * c.nmemb)
          = env2.chunks.map (fun c => c.sz * c.nmemb)) :
    (get_actual_payload_size url env1).result
      = (get_actual_payload_size url env2).result := by
  cases hb : env1.initOk with
  | false =>
    have hb2 : env2.initOk = false := by rw [← hinit, hb]
    simp [get_actual_payload_size, hb, hb2]
  | true =>
    have hb2 : env2.initOk = true := by rw [← hinit, hb]
    have hsum : (env1.chunks.map Chunk.len).sum
        = (env2.chunks.map Chunk.len).sum := by
      rw [map_len_eq, map_len_eq, hlen]
    rw [probe_result_eq url env1 hb, probe_result_eq url env2 hb2, hnet, hsum]

/-- Concrete run of probe_independent_of_chunk_data: same chunk lengths,
entirely different bytes, same probe result. -/
theorem probe_independent_of_chunk_data_witness :
    (get_actual_payload_size "http://x" envFiveBytes).result
      = (get_actual_payload_size "http://x" envFiveNines).result :=
  probe_independent_of_chunk_data "http://x" envFiveBytes envFiveNines
    rfl rfl rfl

/-- Claim C10: chunk lengths and the probe accumulator are computed with
wrapping size_t arithmetic: the probe result is the sum of the raw
size * nmemb products reduced modulo 2 ^ 64, both callbacks compute the chunk
length modulo 2 ^ 64, and the counting callback reports full consumption even
when the product wraps. -/
theorem callback_arithmetic_wraps (url : String) (env : Env)
    (hinit : env.initOk = true) (hnet : env.netCode = CURLE_OK) :
    (get_actual_payload_size url env).result
        = (env.chunks.map fun c => c.sz * c.nmemb).sum % U64
      ∧ (∀ sz nmemb count, count_callback sz nmemb count
          = ((count + sz * nmemb % U64) % U64, sz * nmemb % U64))
      ∧ (∀ (count : Nat) (c : Chunk), (count_callback c.sz c.nmemb count).2 = c.len)
      ∧ (∀ b c, env.appendOk b.calls = true →
          (builder_callback env.appendOk b c).2 = c.sz * c.nmemb % U64) := by
  refine ⟨?_, fun sz nmemb count => rfl, fun count c => rfl,
    fun b c hb => by simp [builder_callback, Builder.append, hb]⟩
  rw [probe_result_eq url env hinit, if_pos hnet, map_len_eq]
  exact (List.sum_nat_mod _ _).symm

/-- Concrete run of callback_arithmetic_wraps: one chunk of
2 ^ 63 * 2 = 2 ^ 64 bytes wraps the counter to 0 and the probe returns 0. -/
theorem callback_arithmetic_wraps_witness :
    (get_actual_payload_size "http://x" envWrap).result = 0 := by
  rw [(callback_arithmetic_wraps "http://x" envWrap rfl rfl).1]
  decide

end CurlToPaddedString
